import Mathlib

/-!
Verification development for the pathmind analysis core
(`apps/api/src/pathmind_api/scoring.py` and
`apps/api/src/pathmind_api/service.py`).

Modelling conventions:
* Python floats are modelled as exact rationals (`ℚ`); the claims under
  scrutiny only involve values where binary floating point and exact
  arithmetic agree.
* Python `round(x, 6)` is modelled as rounding to the nearest multiple of
  10⁻⁶ (half away from the floor, i.e. half-up); the two conventions only
  differ on exact half-microunit ties, which do not occur in any claim.
* Python dicts with string keys are modelled as association lists (first
  binding wins, mirroring a dict's unique keys); Python sets are modelled
  by membership in the list of accumulated elements.
* `DownstreamError`-raising client calls are modelled as `Except Unit`
  valued oracles supplied as inputs.
-/

namespace Pathmind

attribute [local semireducible] Rat.mul Rat.add Rat.sub Rat.inv

/-- Python truthiness of an optional string: `None` and `""` are falsy. -/
def pyTruthy : Option String → Bool
  | none => false
  | some s => !(s == "")

/-- Python `a or b` for optional strings with a string default:
the left value if it is truthy, otherwise the default. -/
def pyOrStr (a : Option String) (b : String) : String :=
  match a with
  | none => b
  | some s => if s == "" then b else s

/-- Lexicographic comparison of character lists by code point, the order
Python uses to sort strings. -/
def lexLe : List Char → List Char → Bool
  | [], _ => true
  | _ :: _, [] => false
  | c :: cs, d :: ds =>
    if c.toNat < d.toNat then true
    else if d.toNat < c.toNat then false
    else lexLe cs ds

/-- String comparison by code points, as used by Python's `sorted`. -/
def pyStrLe (a b : String) : Bool := lexLe a.data b.data

/-- Python `sorted` on a list of strings (a stable sort; on the string
lists in this development stability is irrelevant since they are
deduplicated first). -/
def sortStrings (l : List String) : List String :=
  l.insertionSort (fun a b => pyStrLe a b = true)

/-- Floor of a rational as an integer, computably
(`Int.fdiv` floors, and the denominator is positive). -/
def ratFloorZ (q : ℚ) : ℤ := q.num.fdiv q.den

/-- Rounding a rational to the nearest integer, half up.  Models Python
`round` away from exact .5 ties (see the module comment). -/
def pyRound (q : ℚ) : ℤ := ratFloorZ (q + 1/2)

/-- Python `round(x, 6)`. -/
def round6 (q : ℚ) : ℚ := (pyRound (q * 1000000) : ℚ) / 1000000

/-- Python `int(x)` on a float: truncation toward zero. -/
def pyInt (q : ℚ) : ℤ := if q < 0 then -(ratFloorZ (-q)) else ratFloorZ q

/-- Python `statistics.median`: sort, take the middle element (odd
length) or the mean of the two middle elements (even length).
`statistics.median` raises on an empty list; in the source every call
site guards against the empty list, so the value returned here for `[]`
is never observed. -/
def pymedian (l : List ℚ) : ℚ :=
  let s := l.insertionSort (· ≤ ·)
  if s.length = 0 then 0
  else if s.length % 2 = 1 then s.getD (s.length / 2) 0
  else (s.getD (s.length / 2 - 1) 0 + s.getD (s.length / 2) 0) / 2

/-- Raw ChEMBL bioactivity record (the dict fields read by the code;
an absent key is `none`). -/
structure Activity where
  standard_relation : Option String := none
  assay_type : Option String := none
  assay_organism : Option String := none
  data_validity_comment : Option String := none
  pchembl_value : Option ℚ := none
  target_chembl_id : Option String := none
  assay_chembl_id : Option String := none
deriving DecidableEq, Repr

/-- Embedding of `scoring.meets_assay_filters`: relation must be "=",
assay type "B" or "F", assay organism absent or "Homo sapiens", no
data-validity comment (absent or empty), and a pchembl value present. -/
def meets_assay_filters (activity : Activity) : Bool :=
  (activity.standard_relation == some "=")
    && (activity.assay_type == some "B" || activity.assay_type == some "F")
    && (activity.assay_organism == none || activity.assay_organism == some "Homo sapiens")
    && (activity.data_validity_comment == none || activity.data_validity_comment == some "")
    && activity.pchembl_value.isSome

/-- Embedding of `scoring.confidence_tier`.  A missing confidence score
is treated as 0 (Python's `confidence_score or 0`; a present score of 0
is also 0, which `Option.getD` matches). -/
def confidence_tier (assay_count : ℕ) (median_pchembl : ℚ) (confidence_score : Option ℤ) : String :=
  if 5 ≤ assay_count ∧ 6 ≤ median_pchembl ∧ 9 ≤ confidence_score.getD 0 then "high"
  else if 2 ≤ assay_count ∧ 5 ≤ median_pchembl ∧ 8 ≤ confidence_score.getD 0 then "medium"
  else "low"

/-- Numeric rank of a confidence tier, for stating monotonicity
(low < medium < high). -/
def tierRank (tier : String) : ℕ :=
  if tier == "high" then 2 else if tier == "medium" then 1 else 0

/-- Embedding of `scoring.pathway_impact_score`. -/
def pathway_impact_score (target_values : List ℚ) (pathway_size : ℤ) : ℚ :=
  if target_values = [] ∨ pathway_size ≤ 0 then 0
  else round6 (((target_values.length : ℚ) / (pathway_size : ℚ)) * pymedian target_values)

/-- Embedding of `scoring.percentile` (linear-interpolation quantile).
List indexing uses a default of 0; in the source the indices are always
in bounds. -/
def percentile (values : List ℚ) (q : ℚ) : ℚ :=
  match values with
  | [] => 0
  | [v] => v
  | _ =>
    let ordered := values.insertionSort (· ≤ ·)
    let pos : ℚ := ((values.length : ℤ) - 1 : ℤ) * q
    let lower : ℤ := pyInt pos
    let upper : ℤ := min (lower + 1) ((values.length : ℤ) - 1)
    if upper = lower then ordered.getD lower.toNat 0
    else
      let weight := pos - (lower : ℚ)
      ordered.getD lower.toNat 0 * (1 - weight) + ordered.getD upper.toNat 0 * weight

/-- Result shape of `scoring.assay_spread`. -/
structure Spread where
  min : ℚ
  median : ℚ
  max : ℚ
  iqr : ℚ
deriving DecidableEq, Repr

/-- Embedding of `scoring.assay_spread`. -/
def assay_spread (values : List ℚ) : Spread :=
  if values = [] then { min := 0, median := 0, max := 0, iqr := 0 }
  else
    let ordered := values.insertionSort (· ≤ ·)
    { min := ordered.getD 0 0
      median := pymedian ordered
      max := ordered.getD (ordered.length - 1) 0
      iqr := round6 (percentile ordered (3/4) - percentile ordered (1/4)) }

/-- Embedding of `scoring.confidence_reasons`: three bucket tags. -/
def confidence_reasons (assay_count : ℕ) (median_pchembl : ℚ) (confidence_score : Option ℤ) : List String :=
  let r1 : String :=
    if 5 ≤ assay_count then "assay_count>=5"
    else if 2 ≤ assay_count then "assay_count>=2"
    else "assay_count<2"
  let r2 : String :=
    if 6 ≤ median_pchembl then "median_pchembl>=6.0"
    else if 5 ≤ median_pchembl then "median_pchembl>=5.0"
    else "median_pchembl<5.0"
  let r3 : String :=
    if 9 ≤ confidence_score.getD 0 then "target_confidence>=9"
    else if 8 ≤ confidence_score.getD 0 then "target_confidence>=8"
    else "target_confidence<8"
  [r1, r2, r3]

/-- Scored-pathway record, with the fields the service's
`pathway_entries` dicts carry (`pathway.get("ancestor_pathway_ids", [])`
on an absent key is the empty list). -/
structure PathwayEntry where
  pathway_id : String
  pathway_name : String := ""
  depth : ℤ := 3
  pathway_size : ℤ := 1
  targets_hit : ℕ := 0
  median_pchembl : ℚ := 0
  score : ℚ := 0
  target_ids : List String := []
  reactome_url : String := ""
  ancestor_pathway_ids : List String := []
  coverage_ratio : ℚ := 0
deriving DecidableEq, Repr

/-- Embedding of `scoring.dedupe_child_over_parent`: collect every id
appearing in any pathway's ancestor list (the source accumulates them in
a set; the concatenation here has the same membership), then keep only
the pathways whose own id is not among them. -/
def dedupe_child_over_parent (pathways : List PathwayEntry) : List PathwayEntry :=
  let ancestor_ids := pathways.foldl (fun acc p => acc ++ p.ancestor_pathway_ids) []
  pathways.filter (fun p => !(ancestor_ids.contains p.pathway_id))

/-- Analysis parameters (schema `AnalysisParams`), with the schema's
defaults. -/
structure AnalysisParams where
  pchembl_threshold : ℚ := 5
  min_assays : ℕ := 2
  include_low_confidence : Bool := false
  top_pathways : ℕ := 20
deriving DecidableEq, Repr

/-- Raw candidate dict returned by `chembl.resolve_drug_candidates`
(the fields the service reads; `synonyms` is accessed with
`.get("synonyms", [])`, hence optional). -/
structure RawCandidate where
  chembl_parent_id : String
  display_name : String
  canonical_inchikey : String
  synonyms : Option (List String) := none
deriving DecidableEq, Repr

/-- Schema `DrugResolutionCandidate`. -/
structure DrugResolutionCandidate where
  chembl_parent_id : String
  display_name : String
  canonical_inchikey : String
  match_reasons : List String := []
deriving DecidableEq, Repr

/-- Candidate dict returned by `pubchem.resolve_candidates` (only the
`canonical_inchikey` key is read). -/
structure PubchemCandidate where
  canonical_inchikey : Option String := none
deriving DecidableEq, Repr

/-- Schema `DrugResolution` (the fields the service reads or writes). -/
structure DrugResolution where
  query : String
  display_name : String
  chembl_parent_id : String
  canonical_inchikey : String
  pubchem_cid : Option String := none
  structure_smiles : Option String := none
  synonyms : List String := []
  clinical_phase : Option ℤ := none
  mechanism_of_action : Option String := none
deriving DecidableEq, Repr

/-- Failure modes of `resolve_drug_identity`: a `DownstreamError` from
the primary candidate lookup (caught by `run_analysis` and converted to
a fatal error), the not-found `ValueError`, `AmbiguousDrugError`
carrying the candidate list, and the invalid-choice `ValueError`. -/
inductive ResolveFailure where
  | downstream
  | notFound
  | ambiguous (candidates : List DrugResolutionCandidate)
  | invalidChoice
deriving DecidableEq, Repr

/-- Truthy InChIKeys gathered from the PubChem candidate lookup; a
`DownstreamError` yields the empty set. -/
def pubchem_inchikey_set (r : Except Unit (List PubchemCandidate)) : List String :=
  match r with
  | .error _ => []
  | .ok cs =>
    cs.filterMap fun c =>
      match c.canonical_inchikey with
      | none => none
      | some s => if s == "" then none else some s

/-- Candidate list construction in `resolve_drug_identity`: every raw
candidate gets reason "chembl_parent_match", plus
"pubchem_inchikey_match" when its InChIKey was confirmed by PubChem. -/
def build_candidates (candidates_raw : List RawCandidate) (pubchem_inchikeys : List String) :
    List DrugResolutionCandidate :=
  candidates_raw.map fun candidate =>
    { chembl_parent_id := candidate.chembl_parent_id
      display_name := candidate.display_name
      canonical_inchikey := candidate.canonical_inchikey
      match_reasons :=
        ["chembl_parent_match"] ++
          (if pubchem_inchikeys.contains candidate.canonical_inchikey then
            ["pubchem_inchikey_match"]
          else []) }

/-- Resolution object built from the selected raw candidate. -/
def resolution_of (query : String) (selected : RawCandidate) : DrugResolution :=
  { query := query
    display_name := selected.display_name
    chembl_parent_id := selected.chembl_parent_id
    canonical_inchikey := selected.canonical_inchikey
    synonyms := selected.synonyms.getD [] }

/-- Embedding of `AnalysisService.resolve_drug_identity`.  The two
client calls are supplied as oracle values.  Python's
`if resolution_choice:` treats `None` and `""` alike, which `pyTruthy`
mirrors. -/
def resolve_drug_identity (query : String) (resolution_choice : Option String)
    (chembl_candidates : Except Unit (List RawCandidate))
    (pubchem_candidates : Except Unit (List PubchemCandidate)) :
    Except ResolveFailure (DrugResolution × List DrugResolutionCandidate) :=
  match chembl_candidates with
  | .error _ => .error .downstream
  | .ok candidates_raw =>
    if candidates_raw = [] then .error .notFound
    else
      let candidates := build_candidates candidates_raw (pubchem_inchikey_set pubchem_candidates)
      let selection : Except ResolveFailure RawCandidate :=
        if pyTruthy resolution_choice then
          match candidates_raw.find? (fun c => c.chembl_parent_id == resolution_choice.getD "") with
          | some c => .ok c
          | none => .error .invalidChoice
        else
          match candidates_raw with
          | [c] => .ok c
          | _ => .error (.ambiguous candidates)
      match selection with
      | .error e => .error e
      | .ok selected => .ok (resolution_of query selected, candidates)

/-- Per-target detail dict from `chembl.fetch_target_details` (the keys
the service reads). -/
structure TargetDetail where
  target_name : Option String := none
  gene_symbol : Option String := none
  uniprot_id : Option String := none
  target_confidence_score : Option ℤ := none
  target_organism : Option String := none
deriving DecidableEq, Repr

/-- Data from `opentargets.fetch_drug_info` (the keys the service
reads). -/
structure OTDrugInfo where
  clinical_phase : Option ℤ := none
  mechanism_of_action : Option String := none
  actions_by_symbol : List (String × String) := []
deriving DecidableEq, Repr

/-- Data from `pubchem.resolve_name` (the keys the service reads). -/
structure PubchemData where
  canonical_inchikey : Option String := none
  pubchem_cid : Option String := none
  structure_smiles : Option String := none
deriving DecidableEq, Repr

/-- Pathway-membership record from `reactome.pathways_for_uniprot` or
the ETL cache. -/
structure PathwayAssoc where
  pathway_id : String
  pathway_name : String := ""
  depth : ℤ := 3
  pathway_size : ℤ := 1
  ancestor_pathway_ids : List String := []
  reactome_url : String := ""
deriving DecidableEq, Repr

/-- Schema `TargetHit` (all fields, with the schema defaults). -/
structure TargetHit where
  target_chembl_id : String
  target_name : String
  gene_symbol : Option String := none
  uniprot_id : Option String := none
  action_type : String := "UNKNOWN"
  median_pchembl : ℚ
  assay_count : ℕ
  confidence_score : Option ℤ := none
  confidence_tier : String
  low_confidence : Bool
  source_assay_ids : List String := []
  pchembl_min : Option ℚ := none
  pchembl_max : Option ℚ := none
  pchembl_iqr : Option ℚ := none
  confidence_reasons : List String := []
  mapping_status : String := "mapped"
  mapping_notes : List String := []
deriving DecidableEq, Repr

/-- Schema `AnalysisFlags`; the source's `partial_mapping` flag is named
`mapping_incomplete` here. -/
structure AnalysisFlags where
  direction_unknown : Bool
  limited_data : Bool
  mapping_incomplete : Bool
  high_variability : Bool
deriving DecidableEq, Repr

/-- The fields of the source's `AnalysisResult` the claims are about.
Identifiers, timestamps, the association graph, source versions and the
export manifest are omitted: no claim concerns them and they do not feed
back into any modelled field. -/
structure AnalysisResultM where
  resolution : DrugResolution
  targets : List TargetHit
  pathways : List PathwayEntry
  analysis_flags : AnalysisFlags
  degraded_messages : List String
deriving DecidableEq, Repr

/-- Upstream collaborators of `run_analysis`, as oracle values: each
client call that can raise `DownstreamError` is an `Except Unit` value.
`etl_store` models the optional session: `get_pathways_for_uniprot` as a
total lookup (the source swallows any exception from it into an empty
list, which an empty lookup result also models), with
`upsert_target_pathway_rows` as a functional update. -/
structure UpstreamEnv where
  chembl_resolve_candidates : Except Unit (List RawCandidate)
  pubchem_resolve_candidates : Except Unit (List PubchemCandidate)
  chembl_fetch_activities : String → Except Unit (List Activity)
  pubchem_resolve_name : String → Except Unit PubchemData
  opentargets_drug_info : String → Except Unit OTDrugInfo
  chembl_fetch_target_details : List String → Except Unit (String → Option TargetDetail)
  uniprot_map_target : String → Except Unit (Option String)
  uniprot_map_target_xref : String → Except Unit (Option String)
  uniprot_map_by_gene_symbol : String → Except Unit (Option String)
  reactome_pathways_for_uniprot : String → Except Unit (List PathwayAssoc)
  etl_store : Option (String → List PathwayAssoc)

/-- Admission predicate of the aggregation loop in `run_analysis`
(service lines 180-197): the assay filter, presence of a pchembl value,
the potency threshold, a truthy target id, and the target-level organism
check against the fetched target details. -/
def admits (threshold : ℚ) (details : String → Option TargetDetail) (activity : Activity) : Bool :=
  meets_assay_filters activity &&
    (match activity.pchembl_value with
     | none => false
     | some v =>
       decide (threshold ≤ v) &&
         (match activity.target_chembl_id with
          | none => false
          | some tid =>
            !(tid == "") &&
              (match (details tid).bind (fun d => d.target_organism) with
               | none => true
               | some org => org == "" || org == "Homo sapiens")))

/-- Per-target accumulator of the aggregation loop (the defaultdict
entry in `run_analysis`, with its default values). -/
structure AggEntry where
  target_name : String := ""
  gene_symbol : Option String := none
  uniprot_id : Option String := none
  pchembl_values : List ℚ := []
  assay_count : ℕ := 0
  source_assay_ids : List String := []
  confidence_score : Option ℤ := none
deriving DecidableEq, Repr

/-- Update of an insertion-ordered association list at a key, creating
the entry from a default when absent (models writing through a Python
(default)dict, which keeps first-insertion order). -/
def updateAssoc {α : Type} (dflt : α) : List (String × α) → String → (α → α) → List (String × α)
  | [], k, f => [(k, f dflt)]
  | (k', v) :: rest, k, f =>
    if k' == k then (k', f v) :: rest else (k', v) :: updateAssoc dflt rest k f

/-- Body of the aggregation loop for one activity record: skip
non-admitted records, otherwise write the record into its target's
accumulator (detail-derived fields are overwritten, value lists are
appended; a missing confidence score defaults to 8). -/
def agg_step (threshold : ℚ) (details : String → Option TargetDetail)
    (agg : List (String × AggEntry)) (activity : Activity) : List (String × AggEntry) :=
  if ¬ admits threshold details activity then agg
  else
    let v := activity.pchembl_value.getD 0
    let tid := activity.target_chembl_id.getD ""
    let d := (details tid).getD {}
    updateAssoc {} agg tid fun entry =>
      { target_name := pyOrStr d.target_name tid
        gene_symbol := d.gene_symbol
        uniprot_id := d.uniprot_id
        confidence_score := some (d.target_confidence_score.getD 8)
        pchembl_values := entry.pchembl_values ++ [v]
        assay_count := entry.assay_count + 1
        source_assay_ids :=
          entry.source_assay_ids ++
            (if pyTruthy activity.assay_chembl_id then [activity.assay_chembl_id.getD ""] else []) }

/-- The aggregation loop of `run_analysis` over all activity records. -/
def aggregate_activities (threshold : ℚ) (details : String → Option TargetDetail)
    (activities : List Activity) : List (String × AggEntry) :=
  activities.foldl (agg_step threshold details) []

/-- Construction of the `TargetHit` list from the aggregation map
(service lines 213-243): drop targets under `min_assays`, compute the
spread and tier, drop low-tier targets unless included, and look up the
action type by upper-cased gene symbol (falling back to the first word
of the target name). -/
def build_target_hits (params : AnalysisParams) (actions_by_symbol : List (String × String))
    (aggregated : List (String × AggEntry)) : List TargetHit :=
  aggregated.foldl
    (fun acc pair =>
      let target_id := pair.1
      let entry := pair.2
      if entry.assay_count < params.min_assays then acc
      else
        let spread := assay_spread entry.pchembl_values
        let tier := confidence_tier entry.assay_count spread.median entry.confidence_score
        if ¬ params.include_low_confidence ∧ tier = "low" then acc
        else
          let symbol := (pyOrStr entry.gene_symbol ((entry.target_name.splitOn " ").getD 0 "")).toUpper
          acc ++
            [{ target_chembl_id := target_id
               target_name := entry.target_name
               gene_symbol := entry.gene_symbol
               uniprot_id := entry.uniprot_id
               action_type := (actions_by_symbol.lookup symbol).getD "UNKNOWN"
               median_pchembl := spread.median
               assay_count := entry.assay_count
               confidence_score := entry.confidence_score
               confidence_tier := tier
               low_confidence := decide (tier = "low")
               source_assay_ids := entry.source_assay_ids.take 50
               pchembl_min := some spread.min
               pchembl_max := some spread.max
               pchembl_iqr := some spread.iqr
               confidence_reasons := confidence_reasons entry.assay_count spread.median entry.confidence_score }])
    []

/-- Stable descending sort of target hits by median potency (Python's
stable `list.sort(key=..., reverse=True)`). -/
def sort_hits_desc (hits : List TargetHit) : List TargetHit :=
  hits.insertionSort (fun a b => b.median_pchembl ≤ a.median_pchembl)

/-- Embedding of `AnalysisService._map_uniprot_with_fallback`, split
into one definition per fallback step.  Gene-symbol step: runs only when
the hit has a truthy gene symbol; an outage marks the source down but
the chain still terminates in the unmapped note. -/
def map_step_gene (env : UpstreamEnv) (hit : TargetHit) (source_down : Bool) :
    Option String × List String × Bool :=
  if pyTruthy hit.gene_symbol then
    match env.uniprot_map_by_gene_symbol (hit.gene_symbol.getD "") with
    | .ok mapped =>
      if pyTruthy mapped then (mapped, ["uniprot_gene_symbol"], source_down)
      else (none, ["uniprot_unmapped"], source_down)
    | .error _ => (none, ["uniprot_unmapped"], true)
  else (none, ["uniprot_unmapped"], source_down)

/-- Cross-reference step of the fallback chain: an outage sets
source-down and falls through to the gene-symbol step. -/
def map_step_xref (env : UpstreamEnv) (hit : TargetHit) (source_down : Bool) :
    Option String × List String × Bool :=
  match env.uniprot_map_target_xref hit.target_chembl_id with
  | .ok mapped =>
    if pyTruthy mapped then (mapped, ["uniprot_xref_lookup"], source_down)
    else map_step_gene env hit source_down
  | .error _ => map_step_gene env hit true

/-- Full fallback chain: a known accession wins immediately; otherwise
the direct lookup, then the cross-reference lookup, then the gene-symbol
lookup; an outage at any step falls through to the next step. Returns
(accession or none, mapping notes, source-down flag). -/
def map_uniprot_with_fallback (env : UpstreamEnv) (hit : TargetHit) :
    Option String × List String × Bool :=
  if pyTruthy hit.uniprot_id then (hit.uniprot_id, ["chembl_target_accession"], false)
  else
    match env.uniprot_map_target hit.target_chembl_id with
    | .ok mapped =>
      if pyTruthy mapped then (mapped, ["uniprot_chembl_accession"], false)
      else map_step_xref env hit false
    | .error _ => map_step_xref env hit true

/-- State threaded through the accession/pathway mapping loop of
`run_analysis` (service lines 250-302).  The source's `partial_mapping`
flag is named `mapping_incomplete` here. -/
structure MapState where
  hits_out : List TargetHit := []
  pathways_by_target : List (String × List PathwayAssoc) := []
  etl_cache : Option (String → List PathwayAssoc) := none
  uniprot_down : Bool := false
  reactome_down : Bool := false
  mapping_incomplete : Bool := false

/-- Effect of one mapping-loop iteration on one hit: the updated hit,
its pathway contribution, and the updated shared mapping flags and ETL
cache. -/
structure HitOutcome where
  hit : TargetHit
  pathways : List PathwayAssoc
  etl_cache : Option (String → List PathwayAssoc)
  uniprot_down : Bool
  reactome_down : Bool
  mapping_incomplete : Bool

/-- Write-back of a live Reactome result into the ETL store
(`upsert_target_pathway_rows`): only when a session exists and the
result is non-empty. -/
def upsert_cache (cache : Option (String → List PathwayAssoc)) (acc : String)
    (ps : List PathwayAssoc) : Option (String → List PathwayAssoc) :=
  match cache with
  | some c => if ps ≠ [] then some (fun k => if k == acc then ps else c k) else some c
  | none => none

/-- Live Reactome lookup when the ETL cache produced nothing: on
success the result (possibly empty) is returned, written back, and noted;
on a `DownstreamError` the hit is marked partial with the unavailable
note and the loop's reactome-down and incomplete-mapping flags are set.
Returns (pathways, hit, cache, reactome_down, mapping_incomplete). -/
def live_lookup (env : UpstreamEnv) (st : MapState) (acc : String) (hit : TargetHit)
    (cached : List PathwayAssoc) :
    List PathwayAssoc × TargetHit × Option (String → List PathwayAssoc) × Bool × Bool :=
  if cached ≠ [] then (cached, hit, st.etl_cache, st.reactome_down, st.mapping_incomplete)
  else
    match env.reactome_pathways_for_uniprot acc with
    | .ok ps =>
      (ps, { hit with mapping_notes := hit.mapping_notes ++ ["reactome_live_lookup"] },
       upsert_cache st.etl_cache acc ps, st.reactome_down, st.mapping_incomplete)
    | .error _ =>
      ([],
       { hit with
           mapping_status := "partial"
           mapping_notes := hit.mapping_notes ++ ["reactome_unavailable"] },
       st.etl_cache, true, true)

/-- Mapping-status resolution of a mapped hit (service lines 293-299):
non-empty pathways give "mapped", otherwise "partial" unless the
pathway source is already known to be down. -/
def status_resolve (pathways : List PathwayAssoc) (etl_mapped reactome_down : Bool)
    (hit : TargetHit) : TargetHit :=
  if pathways ≠ [] ∧ etl_mapped = true then { hit with mapping_status := "mapped" }
  else if pathways ≠ [] then { hit with mapping_status := "mapped" }
  else if ¬ reactome_down = true then { hit with mapping_status := "partial" }
  else hit

/-- Assembly of a mapped hit's outcome from the live-lookup result:
status resolution, the incomplete-mapping flag for an empty pathway set,
and the (vacuous for a mapped hit) unmapped guard on a falsy
accession. -/
def finalize_mapped (uniprot_down etl_mapped : Bool)
    (live : List PathwayAssoc × TargetHit × Option (String → List PathwayAssoc) × Bool × Bool) :
    HitOutcome :=
  match live with
  | (pathways, hit, cache', reactome_down, incomplete) =>
    let hit := status_resolve pathways etl_mapped reactome_down hit
    let incomplete := if pathways = [] ∧ ¬ reactome_down = true then true else incomplete
    let hit := if ¬ pyTruthy hit.uniprot_id then { hit with mapping_status := "unmapped" } else hit
    { hit := hit, pathways := pathways, etl_cache := cache', uniprot_down := uniprot_down,
      reactome_down := reactome_down, mapping_incomplete := incomplete }

/-- The mapped-hit half of the loop body: ETL cache lookup (with its
note), live lookup, and outcome assembly. -/
def mapped_outcome (env : UpstreamEnv) (st : MapState) (uniprot_down : Bool)
    (hit : TargetHit) : HitOutcome :=
  let acc := hit.uniprot_id.getD ""
  let cached :=
    match st.etl_cache with
    | none => []
    | some cache => cache acc
  let hit :=
    if cached ≠ [] then
      { hit with mapping_notes := hit.mapping_notes ++ ["etl_target_pathway_map"] }
    else hit
  finalize_mapped uniprot_down (!cached.isEmpty) (live_lookup env st acc hit cached)

/-- One iteration of the mapping loop (service lines 256-302): run the
accession fallback chain; an unmapped hit is marked, contributes an
empty pathway list and is kept; a mapped hit consults the ETL cache,
then Reactome (writing live results back into the cache), and gets its
mapping status resolved exactly as in the source. -/
def hit_outcome (env : UpstreamEnv) (st : MapState) (hit : TargetHit) : HitOutcome :=
  match map_uniprot_with_fallback env hit with
  | (mapped, notes, mapping_down) =>
    let uniprot_down := if mapping_down then true else st.uniprot_down
    let hit := { hit with mapping_notes := notes }
    if pyTruthy mapped then
      mapped_outcome env st uniprot_down { hit with uniprot_id := mapped }
    else
      { hit :=
          { hit with
              mapping_status := "unmapped"
              mapping_notes := hit.mapping_notes ++ ["unmapped_target"] }
        pathways := []
        etl_cache := st.etl_cache
        uniprot_down := uniprot_down
        reactome_down := st.reactome_down
        mapping_incomplete := true }

/-- State update of one mapping-loop iteration: the processed hit and
its pathway contribution are appended (the target id is never reassigned
by the loop body), and the shared flags and cache replaced. -/
def process_hit (env : UpstreamEnv) (st : MapState) (hit : TargetHit) : MapState :=
  let o := hit_outcome env st hit
  { hits_out := st.hits_out ++ [o.hit]
    pathways_by_target := st.pathways_by_target ++ [(o.hit.target_chembl_id, o.pathways)]
    etl_cache := o.etl_cache
    uniprot_down := o.uniprot_down
    reactome_down := o.reactome_down
    mapping_incomplete := o.mapping_incomplete }

/-- The mapping loop over all (sorted, truncated) target hits. -/
def mapping_loop (env : UpstreamEnv) (hits : List TargetHit) : MapState :=
  hits.foldl (process_hit env) { etl_cache := env.etl_store }

/-- Per-pathway accumulator of the pathway aggregation loop (the
defaultdict entry at service lines 314-325, with its default values). -/
structure PathwayBucket where
  pathway_id : String := ""
  pathway_name : String := ""
  depth : ℤ := 3
  pathway_size : ℤ := 1
  target_ids : List String := []
  target_values : List ℚ := []
  ancestor_pathway_ids : List String := []
  reactome_url : String := ""
deriving DecidableEq, Repr

/-- One pathway of one target folded into the aggregation: depth ≤ 1 is
skipped, metadata fields are overwritten, id/value lists appended, and
the size floored at 1. -/
def add_pathway (target_id : String) (hit : TargetHit)
    (agg : List (String × PathwayBucket)) (pathway : PathwayAssoc) :
    List (String × PathwayBucket) :=
  if pathway.depth ≤ 1 then agg
  else
    updateAssoc {} agg pathway.pathway_id fun bucket =>
      { bucket with
          pathway_id := pathway.pathway_id
          pathway_name := pathway.pathway_name
          depth := pathway.depth
          pathway_size := max pathway.pathway_size 1
          ancestor_pathway_ids := pathway.ancestor_pathway_ids
          reactome_url := pathway.reactome_url
          target_ids := bucket.target_ids ++ [target_id]
          target_values := bucket.target_values ++ [hit.median_pchembl] }

/-- The pathway aggregation loop (service lines 326-342): for each
target in insertion order, skip it when absent from the hit map, else
fold its pathway list (the source's `hit_map` has unique keys, so the
first match of `find?` is the only match). -/
def build_pathway_agg (hits : List TargetHit)
    (pathways_by_target : List (String × List PathwayAssoc)) :
    List (String × PathwayBucket) :=
  pathways_by_target.foldl
    (fun agg pair =>
      match hits.find? (fun h => h.target_chembl_id == pair.1) with
      | none => agg
      | some hit => pair.2.foldl (add_pathway pair.1 hit) agg)
    []

/-- The `pathway_entries` construction (service lines 344-363): unique
sorted contributing targets, their median potencies, the impact score
and the coverage ratio. -/
def build_pathway_entries (hits : List TargetHit)
    (agg : List (String × PathwayBucket)) : List PathwayEntry :=
  agg.foldl
    (fun acc pair =>
      let bucket := pair.2
      let unique_targets := sortStrings bucket.target_ids.dedup
      let unique_values :=
        unique_targets.filterMap fun tid =>
          (hits.find? (fun h => h.target_chembl_id == tid)).map (fun h => h.median_pchembl)
      acc ++
        [{ pathway_id := bucket.pathway_id
           pathway_name := bucket.pathway_name
           depth := bucket.depth
           pathway_size := bucket.pathway_size
           targets_hit := unique_targets.length
           median_pchembl := if unique_values = [] then 0 else pymedian unique_values
           score := pathway_impact_score unique_values bucket.pathway_size
           target_ids := unique_targets
           reactome_url := bucket.reactome_url
           ancestor_pathway_ids := bucket.ancestor_pathway_ids
           coverage_ratio := round6 ((unique_targets.length : ℚ) / ((max bucket.pathway_size 1 : ℤ) : ℚ)) }])
    []

/-- Stable descending sort of pathway entries by score. -/
def sort_pathways_desc (entries : List PathwayEntry) : List PathwayEntry :=
  entries.insertionSort (fun a b => b.score ≤ a.score)

/-- Cap on the number of reported targets (`MAX_TARGETS_DEFAULT`). -/
def MAX_TARGETS_DEFAULT : ℕ := 50

/-- Failure test on an oracle call result. -/
def isErr {α : Type} (r : Except Unit α) : Bool :=
  match r with
  | .ok _ => false
  | .error _ => true

/-- The degradation-message list accumulated by `run_analysis`, in the
source's append order: structure enrichment, mechanism enrichment,
truncation, accession mapping, pathway source, incomplete mapping
coverage, limited data. -/
def degraded_of (pubchem_err ot_err truncated : Bool) (m : MapState) (limited : Bool) :
    List String :=
  (if pubchem_err then ["Drug structure image unavailable."] else []) ++
    (if ot_err then ["Drug mechanism data unavailable. Direction information may be missing."]
     else []) ++
    (if truncated then ["Showing top 50 targets by potency for performance."] else []) ++
    (if m.uniprot_down then ["Some target annotations may be incomplete."] else []) ++
    (if m.reactome_down then
      ["Pathway data temporarily unavailable. Showing target binding data only."]
     else []) ++
    (if m.mapping_incomplete && !m.reactome_down then
      ["Some targets have limited pathway mapping coverage."]
     else []) ++
    (if limited then ["Limited target data available for this compound."] else [])

/-- Intermediate values of the post-fetch part of `run_analysis`,
exposed so theorems can speak about the loop flags and message list as
well as the final result. -/
structure CoreTrace where
  details : String → Option TargetDetail
  aggregated : List (String × AggEntry)
  hits_top : List TargetHit
  truncated : Bool
  mapping : MapState
  limited : Bool
  messages : List String
  result : AnalysisResultM

/-- Embedding of the body of `run_analysis` after the fatal-error gate
(service lines 143-410): enrichment lookups with their degradation
messages, target-detail fetch with its silent placeholder fallback,
aggregation, hit construction, sorting/truncation, the mapping loop,
pathway scoring with dedup, flags, and the final deduplicated sorted
message list. -/
def analysis_parts (env : UpstreamEnv) (drug_name : String) (params : AnalysisParams)
    (resolution : DrugResolution) (activities : List Activity) : CoreTrace :=
  let pubchem_data :=
    match env.pubchem_resolve_name drug_name with
    | .ok d => d
    | .error _ => {}
  let opentargets_data :=
    match env.opentargets_drug_info resolution.chembl_parent_id with
    | .ok d => d
    | .error _ => {}
  let target_ids :=
    sortStrings ((activities.filterMap (fun a => a.target_chembl_id)).filter
      (fun t => !(t == ""))).dedup
  let details :=
    match env.chembl_fetch_target_details target_ids with
    | .ok m => m
    | .error _ => fun tid =>
        if target_ids.contains tid then
          some { target_name := some tid, uniprot_id := none, target_confidence_score := none }
        else none
  let resolution' :=
    { resolution with
        canonical_inchikey := pyOrStr pubchem_data.canonical_inchikey resolution.canonical_inchikey
        pubchem_cid := pubchem_data.pubchem_cid
        structure_smiles := pubchem_data.structure_smiles
        clinical_phase := opentargets_data.clinical_phase
        mechanism_of_action := opentargets_data.mechanism_of_action }
  let aggregated := aggregate_activities params.pchembl_threshold details activities
  let hits_sorted := sort_hits_desc (build_target_hits params opentargets_data.actions_by_symbol aggregated)
  let truncated := decide (MAX_TARGETS_DEFAULT < hits_sorted.length)
  let hits_top := if truncated then hits_sorted.take MAX_TARGETS_DEFAULT else hits_sorted
  let mapping := mapping_loop env hits_top
  let entries := build_pathway_entries mapping.hits_out
    (build_pathway_agg mapping.hits_out mapping.pathways_by_target)
  let top_pathways := (sort_pathways_desc (dedupe_child_over_parent entries)).take params.top_pathways
  let direction_unknown := mapping.hits_out.any (fun t => t.action_type == "UNKNOWN")
  let limited :=
    decide (mapping.hits_out.length < 3 ∨ (mapping.hits_out.map (fun t => t.assay_count)).sum < 10)
  let high_variability :=
    mapping.hits_out.any (fun t => decide (1 ≤ t.pchembl_iqr.getD 0) && decide (3 ≤ t.assay_count))
  let messages :=
    degraded_of (isErr (env.pubchem_resolve_name drug_name))
      (isErr (env.opentargets_drug_info resolution.chembl_parent_id)) truncated mapping limited
  { details := details
    aggregated := aggregated
    hits_top := hits_top
    truncated := truncated
    mapping := mapping
    limited := limited
    messages := messages
    result :=
      { resolution := resolution'
        targets := mapping.hits_out
        pathways := top_pathways
        analysis_flags :=
          { direction_unknown := direction_unknown
            limited_data := limited
            mapping_incomplete :=
              mapping.mapping_incomplete || mapping.uniprot_down || mapping.reactome_down
            high_variability := high_variability }
        degraded_messages := sortStrings messages.dedup } }

/-- Errors escaping `run_analysis`: `FatalAnalysisError`, or a
resolution failure propagating uncaught (`ValueError` /
`AmbiguousDrugError`). -/
inductive RunError where
  | fatal (message : String)
  | resolution (failure : ResolveFailure)
deriving DecidableEq, Repr

/-- Embedding of `run_analysis`: resolution and the activity fetch
inside the fatal gate (a `DownstreamError` from either becomes
`FatalAnalysisError`, other resolution failures propagate), the
empty-activities fatal check, then the total core. -/
def run_analysis (env : UpstreamEnv) (drug_name : String) (params : AnalysisParams)
    (resolution_choice : Option String) : Except RunError AnalysisResultM :=
  match resolve_drug_identity drug_name resolution_choice env.chembl_resolve_candidates
      env.pubchem_resolve_candidates with
  | .error .downstream => .error (.fatal "ChEMBL is temporarily unavailable.")
  | .error e => .error (.resolution e)
  | .ok (resolution, _) =>
    match env.chembl_fetch_activities resolution.chembl_parent_id with
    | .error _ => .error (.fatal "ChEMBL is temporarily unavailable.")
    | .ok activities =>
      if activities = [] then .error (.fatal "No ChEMBL activity records found for this drug.")
      else .ok (analysis_parts env drug_name params resolution activities).result

/-- Success projection of a run result. -/
def runIsOk (r : Except RunError AnalysisResultM) : Bool :=
  match r with
  | .ok _ => true
  | .error _ => false

/-- Target-list projection of a run result. -/
def runTargets (r : Except RunError AnalysisResultM) : Option (List TargetHit) :=
  match r with
  | .ok res => some res.targets
  | .error _ => none

/-- Degraded-message projection of a run result. -/
def runDegraded (r : Except RunError AnalysisResultM) : Option (List String) :=
  match r with
  | .ok res => some res.degraded_messages
  | .error _ => none

/-- Record satisfying all six record-level conditions of claim C3. -/
def activityC3 : Activity :=
  { standard_relation := some "=", assay_type := some "B",
    assay_organism := some "Homo sapiens", data_validity_comment := none,
    pchembl_value := some 6, target_chembl_id := some "CHEMBL999",
    assay_chembl_id := some "A1" }

/-- Target details declaring `activityC3`'s target to be a rat
protein. -/
def detailsC3 : String → Option TargetDetail := fun tid =>
  if tid == "CHEMBL999" then some { target_organism := some "Rattus norvegicus" } else none

/-- Target-level organism acceptance: absent, empty, or human (the
source reads `details.get(tid, {}).get("target_organism", "")` and
rejects a truthy non-human value). -/
def organism_ok (o : Option String) : Prop :=
  o = none ∨ o = some "" ∨ o = some "Homo sapiens"

/-- Raw candidate A, used to instantiate the C6 policy. -/
def candA : RawCandidate :=
  { chembl_parent_id := "CHEMBL1", display_name := "DRUG A", canonical_inchikey := "IK-A" }

/-- Raw candidate B, used to instantiate the C6 policy. -/
def candB : RawCandidate :=
  { chembl_parent_id := "CHEMBL2", display_name := "DRUG B", canonical_inchikey := "IK-B" }

/-- Single raw candidate for the C1 scenario. -/
def candC1 : RawCandidate :=
  { chembl_parent_id := "CHEMBL25", display_name := "ASPIRIN", canonical_inchikey := "IK-C1" }

/-- An activity record rejected by the assay filter (relation ">"). -/
def activityC1 : Activity :=
  { standard_relation := some ">", assay_type := some "B",
    assay_organism := some "Homo sapiens", data_validity_comment := none,
    pchembl_value := some 6, target_chembl_id := some "CHEMBL203",
    assay_chembl_id := some "A1" }

/-- Environment for the C1 scenario: every upstream source healthy, the
primary source returning exactly one record, which the assay filter
rejects. -/
def envC1 : UpstreamEnv :=
  { chembl_resolve_candidates := .ok [candC1]
    pubchem_resolve_candidates := .ok []
    chembl_fetch_activities := fun _ => .ok [activityC1]
    pubchem_resolve_name := fun _ => .ok {}
    opentargets_drug_info := fun _ => .ok {}
    chembl_fetch_target_details := fun _ => .ok (fun _ => none)
    uniprot_map_target := fun _ => .ok none
    uniprot_map_target_xref := fun _ => .ok none
    uniprot_map_by_gene_symbol := fun _ => .ok none
    reactome_pathways_for_uniprot := fun _ => .ok []
    etl_store := none }

/-- Concrete target hit with no known accession, for the C7 witness. -/
def hitC7 : TargetHit :=
  { target_chembl_id := "CHEMBL203", target_name := "Epidermal growth factor receptor",
    gene_symbol := some "EGFR", uniprot_id := none, median_pchembl := 6, assay_count := 3,
    confidence_tier := "medium", low_confidence := false }

/-- Environment whose three accession lookups are the given oracles and
whose other sources are inert, for the C7 witness. -/
def envC7 (direct xref gene : Except Unit (Option String)) : UpstreamEnv :=
  { chembl_resolve_candidates := .ok []
    pubchem_resolve_candidates := .ok []
    chembl_fetch_activities := fun _ => .ok []
    pubchem_resolve_name := fun _ => .ok {}
    opentargets_drug_info := fun _ => .ok {}
    chembl_fetch_target_details := fun _ => .ok (fun _ => none)
    uniprot_map_target := fun _ => direct
    uniprot_map_target_xref := fun _ => xref
    uniprot_map_by_gene_symbol := fun _ => gene
    reactome_pathways_for_uniprot := fun _ => .ok []
    etl_store := none }

/-- An admissible activity record for target `tid` with assay id
`aid`. -/
def actOf (tid aid : String) : Activity :=
  { standard_relation := some "=", assay_type := some "B", assay_organism := none,
    data_validity_comment := none, pchembl_value := some 6,
    target_chembl_id := some tid, assay_chembl_id := some aid }

/-- Environment in which only the target-detail fetch fails: three
targets with four admissible assays each, accession and pathway lookups
healthy. -/
def envC8x : UpstreamEnv :=
  { chembl_resolve_candidates :=
      .ok [{ chembl_parent_id := "CHEMBL25", display_name := "ASPIRIN",
             canonical_inchikey := "IK-C8" }]
    pubchem_resolve_candidates := .ok []
    chembl_fetch_activities := fun _ =>
      .ok [actOf "CHEMBL1" "A1", actOf "CHEMBL1" "A2", actOf "CHEMBL1" "A3", actOf "CHEMBL1" "A4",
           actOf "CHEMBL2" "B1", actOf "CHEMBL2" "B2", actOf "CHEMBL2" "B3", actOf "CHEMBL2" "B4",
           actOf "CHEMBL3" "C1", actOf "CHEMBL3" "C2", actOf "CHEMBL3" "C3", actOf "CHEMBL3" "C4"]
    pubchem_resolve_name := fun _ => .ok {}
    opentargets_drug_info := fun _ => .ok {}
    chembl_fetch_target_details := fun _ => .error ()
    uniprot_map_target := fun tid => .ok (some ("P-" ++ tid))
    uniprot_map_target_xref := fun _ => .ok none
    uniprot_map_by_gene_symbol := fun _ => .ok none
    reactome_pathways_for_uniprot := fun _ =>
      .ok [{ pathway_id := "R-HSA-1", pathway_name := "Pw", depth := 2, pathway_size := 10 }]
    etl_store := none }

/-- Placeholder hit used only to take the head of a computed list. -/
def dummyHit : TargetHit :=
  { target_chembl_id := "", target_name := "", median_pchembl := 0, assay_count := 0,
    confidence_tier := "low", low_confidence := true }

/-- Resolution input for the C8 witness. -/
def resW : DrugResolution :=
  { query := "d", display_name := "D", chembl_parent_id := "CHEMBL25",
    canonical_inchikey := "IK-W" }

/-- Environment in which structure enrichment, mechanism enrichment, the
direct accession lookup and the pathway source all fail, while the xref
fallback succeeds. -/
def envC8w : UpstreamEnv :=
  { chembl_resolve_candidates := .ok []
    pubchem_resolve_candidates := .ok []
    chembl_fetch_activities := fun _ => .ok [actOf "CHEMBL1" "A1", actOf "CHEMBL1" "A2"]
    pubchem_resolve_name := fun _ => .error ()
    opentargets_drug_info := fun _ => .error ()
    chembl_fetch_target_details := fun _ => .ok (fun _ => some {})
    uniprot_map_target := fun _ => .error ()
    uniprot_map_target_xref := fun _ => .ok (some "P1")
    uniprot_map_by_gene_symbol := fun _ => .ok none
    reactome_pathways_for_uniprot := fun _ => .error ()
    etl_store := none }

/-- A Python dict from pathway id to score: an association list with the
dict's (unique) keys; lookup takes the first binding. -/
def pyget (m : List (String × ℚ)) (k : String) : ℚ := (m.lookup k).getD 0

/-- Sorted union of the key sets of the two score dicts
(`sorted(set(pathways_a) | set(pathways_b))`). -/
def allPathwayIds (pathways_a pathways_b : List (String × ℚ)) : List String :=
  sortStrings ((pathways_a.map Prod.fst ++ pathways_b.map Prod.fst).dedup)

/-- Sum of squares of a score vector (the source's
`sum(a * a for a in vec)`). -/
def sumSq (v : List ℚ) : ℚ := (v.map (fun a => a * a)).sum

/-- Dot product over zipped score vectors (the source's
`sum(a * b for a, b in zip(vec_a, vec_b))`; the vectors have equal
length). -/
def dotProd (v w : List ℚ) : ℚ := ((v.zip w).map (fun p => p.1 * p.2)).sum

/-- Python `round(x, 6)` on the real-valued cosine (same half-up
convention as `round6`; see the module comment). -/
noncomputable def round6R (x : ℝ) : ℝ := ((⌊x * 1000000 + 1 / 2⌋ : ℤ) : ℝ) / 1000000

/-- Schema `CompareMetrics`. -/
structure CompareMetrics where
  target_jaccard : ℚ
  pathway_cosine_similarity : ℝ
  shared_pathway_count : ℕ
  unique_pathway_count_a : ℕ
  unique_pathway_count_b : ℕ

/-- Embedding of `scoring.compare_metrics`: Jaccard over the target-id
sets (0 on an empty union), cosine similarity over score vectors indexed
by the union of pathway ids (0 when either norm is 0, with `** 0.5`
modelled by the exact real square root), and plain set arithmetic for
the shared/unique counts. -/
noncomputable def compare_metrics (targets_a targets_b : List String)
    (pathways_a pathways_b : List (String × ℚ)) : CompareMetrics :=
  let set_a := targets_a.toFinset
  let set_b := targets_b.toFinset
  let union := set_a ∪ set_b
  let inter := set_a ∩ set_b
  let target_jaccard : ℚ := if union = ∅ then 0 else (inter.card : ℚ) / (union.card : ℚ)
  let ids := allPathwayIds pathways_a pathways_b
  let vec_a := ids.map (pyget pathways_a)
  let vec_b := ids.map (pyget pathways_b)
  let dot := dotProd vec_a vec_b
  let norm_a : ℝ := Real.sqrt ((sumSq vec_a : ℚ) : ℝ)
  let norm_b : ℝ := Real.sqrt ((sumSq vec_b : ℚ) : ℝ)
  let cosine : ℝ := if norm_a = 0 ∨ norm_b = 0 then 0 else (dot : ℝ) / (norm_a * norm_b)
  { target_jaccard := round6 target_jaccard
    pathway_cosine_similarity := round6R cosine
    shared_pathway_count :=
      ((pathways_a.map Prod.fst).toFinset ∩ (pathways_b.map Prod.fst).toFinset).card
    unique_pathway_count_a :=
      ((pathways_a.map Prod.fst).toFinset \ (pathways_b.map Prod.fst).toFinset).card
    unique_pathway_count_b :=
      ((pathways_b.map Prod.fst).toFinset \ (pathways_a.map Prod.fst).toFinset).card }

/-- Membership in the list of ancestor ids accumulated by
`dedupe_child_over_parent`'s fold. -/
theorem mem_foldl_ancestors (ps : List PathwayEntry) (acc : List String) (x : String) :
    x ∈ ps.foldl (fun a p => a ++ p.ancestor_pathway_ids) acc ↔
      x ∈ acc ∨ ∃ q ∈ ps, x ∈ q.ancestor_pathway_ids := by
  induction ps generalizing acc with
  | nil => simp
  | cons p ps ih =>
    simp only [List.foldl_cons, ih, List.mem_append, List.mem_cons]
    constructor
    · rintro ((h | h) | ⟨q, hq, hx⟩)
      · exact Or.inl h
      · exact Or.inr ⟨p, Or.inl rfl, h⟩
      · exact Or.inr ⟨q, Or.inr hq, hx⟩
    · rintro (h | ⟨q, (rfl | hq), hx⟩)
      · exact Or.inl (Or.inl h)
      · exact Or.inl (Or.inr hx)
      · exact Or.inr ⟨q, hq, hx⟩

/-- Unfolding of a negative `List.contains` test into non-membership. -/
theorem contains_eq_false_iff (l : List String) (x : String) :
    l.contains x = false ↔ x ∉ l := by
  simp [List.contains, List.elem_iff]

/-- C5: `dedupe_child_over_parent` removes exactly those pathways whose
own id appears in the union of the ancestor-id lists over all input
pathways and keeps every other pathway; for a parent with no ancestors
plus a child listing the parent as ancestor, only the child remains. -/
theorem C5_dedupe_child_over_parent_spec :
    (∀ (ps : List PathwayEntry) (p : PathwayEntry),
      p ∈ dedupe_child_over_parent ps ↔
        p ∈ ps ∧ ¬ ∃ q ∈ ps, p.pathway_id ∈ q.ancestor_pathway_ids) ∧
    dedupe_child_over_parent
      [{ pathway_id := "R-HSA-PARENT", ancestor_pathway_ids := [] },
       { pathway_id := "R-HSA-CHILD", ancestor_pathway_ids := ["R-HSA-PARENT"] }] =
      [{ pathway_id := "R-HSA-CHILD", ancestor_pathway_ids := ["R-HSA-PARENT"] }] := by
  constructor
  · intro ps p
    simp only [dedupe_child_over_parent, List.mem_filter, Bool.not_eq_true',
      contains_eq_false_iff, mem_foldl_ancestors, List.not_mem_nil, false_or]
  · decide

/-- C10: `dedupe_child_over_parent` always returns a subsequence of its
input, and removes every pathway of a non-empty input when each input
pathway's id occurs in some input pathway's ancestor list (a two-cycle,
or a pathway listing its own id). -/
theorem C10_dedupe_child_over_parent_sublist_and_empty :
    (∀ ps : List PathwayEntry, (dedupe_child_over_parent ps).Sublist ps) ∧
    dedupe_child_over_parent
      [{ pathway_id := "R-HSA-A", ancestor_pathway_ids := ["R-HSA-B"] },
       { pathway_id := "R-HSA-B", ancestor_pathway_ids := ["R-HSA-A"] }] = [] ∧
    dedupe_child_over_parent
      [{ pathway_id := "R-HSA-C", ancestor_pathway_ids := ["R-HSA-C"] }] = [] := by
  exact ⟨fun ps => List.filter_sublist _, by decide, by decide⟩

/-- C2: `pathway_impact_score` is 0 on an empty value list or a
non-positive pathway size, and otherwise is coverage times median
rounded to 6 decimal places; on values [8, 6] with size 100 it is
0.14. -/
theorem C2_pathway_impact_score_spec :
    (∀ size : ℤ, pathway_impact_score [] size = 0) ∧
    (∀ (vals : List ℚ) (size : ℤ), size ≤ 0 → pathway_impact_score vals size = 0) ∧
    (∀ (vals : List ℚ) (size : ℤ), vals ≠ [] → 0 < size →
      pathway_impact_score vals size =
        round6 (((vals.length : ℚ) / (size : ℚ)) * pymedian vals)) ∧
    pathway_impact_score [8, 6] 100 = 14 / 100 := by
  refine ⟨?_, ?_, ?_, by decide⟩
  · intro size
    simp [pathway_impact_score]
  · intro vals size h
    simp [pathway_impact_score, h]
  · intro vals size h1 h2
    unfold pathway_impact_score
    rw [if_neg]
    push_neg
    exact ⟨h1, by omega⟩

/-- Witness for C2 at concrete inputs. -/
theorem C2_pathway_impact_score_spec_witness :
    pathway_impact_score [] 5 = 0 ∧
    pathway_impact_score [7] (-3) = 0 ∧
    pathway_impact_score [8, 6] 100 =
      round6 ((((8 : ℚ) :: [6]).length : ℚ) / ((100 : ℤ) : ℚ) * pymedian [8, 6]) :=
  ⟨C2_pathway_impact_score_spec.1 5,
   C2_pathway_impact_score_spec.2.1 [7] (-3) (by norm_num),
   C2_pathway_impact_score_spec.2.2.1 [8, 6] 100 (by simp) (by norm_num)⟩

/-- C4: characterisation of the three confidence tiers, monotonicity of
the tier in all three inputs, and the three sample values. -/
theorem C4_confidence_tier_spec :
    (∀ (c : ℕ) (m : ℚ) (s : Option ℤ),
      confidence_tier c m s = "high" ↔ 5 ≤ c ∧ 6 ≤ m ∧ 9 ≤ s.getD 0) ∧
    (∀ (c : ℕ) (m : ℚ) (s : Option ℤ), confidence_tier c m s ≠ "high" →
      (confidence_tier c m s = "medium" ↔ 2 ≤ c ∧ 5 ≤ m ∧ 8 ≤ s.getD 0)) ∧
    (∀ (c : ℕ) (m : ℚ) (s : Option ℤ), confidence_tier c m s ≠ "high" →
      confidence_tier c m s ≠ "medium" → confidence_tier c m s = "low") ∧
    (∀ (c c' : ℕ) (m m' : ℚ) (s s' : ℤ), c ≤ c' → m ≤ m' → s ≤ s' →
      tierRank (confidence_tier c m (some s)) ≤ tierRank (confidence_tier c' m' (some s'))) ∧
    confidence_tier 5 (31 / 5) (some 9) = "high" ∧
    confidence_tier 2 (51 / 10) (some 8) = "medium" ∧
    confidence_tier 1 (49 / 10) (some 7) = "low" := by
  refine ⟨?_, ?_, ?_, ?_, by decide, by decide, by decide⟩
  · intro c m s
    unfold confidence_tier
    split_ifs with h1 h2 <;> simp_all
  · intro c m s hne
    unfold confidence_tier at hne ⊢
    split_ifs at hne ⊢ with h1 h2 <;> simp_all
  · intro c m s hne1 hne2
    unfold confidence_tier at hne1 hne2 ⊢
    split_ifs at hne1 hne2 ⊢ with h1 h2 <;> simp_all
  · intro c c' m m' s s' hc hm hs
    have hi : (5 ≤ c ∧ 6 ≤ m ∧ 9 ≤ s) → (5 ≤ c' ∧ 6 ≤ m' ∧ 9 ≤ s') :=
      fun ⟨a, b, d⟩ => ⟨le_trans a hc, le_trans b hm, le_trans d hs⟩
    have hmed : (2 ≤ c ∧ 5 ≤ m ∧ 8 ≤ s) → (2 ≤ c' ∧ 5 ≤ m' ∧ 8 ≤ s') :=
      fun ⟨a, b, d⟩ => ⟨le_trans a hc, le_trans b hm, le_trans d hs⟩
    unfold confidence_tier
    simp only [Option.getD_some]
    split_ifs with h1 h2 h3 h4 h5 h6 h7 <;>
      first
        | decide
        | (exact absurd (hi (by assumption)) (by assumption))
        | (exact absurd (hmed (by assumption)) (by assumption))

/-- Counterexample to C3: a record with relation "=", accepted assay
type, human assay organism, no validity warning, and a potency value at
or above the threshold is nevertheless rejected from aggregation when
its target's detail-level organism is non-human. -/
theorem C3_admission_counterexample :
    activityC3.standard_relation = some "=" ∧
    activityC3.assay_type = some "B" ∧
    activityC3.assay_organism = some "Homo sapiens" ∧
    activityC3.data_validity_comment = none ∧
    activityC3.pchembl_value = some 6 ∧ (5 : ℚ) ≤ 6 ∧
    admits 5 detailsC3 activityC3 = false ∧
    aggregate_activities 5 detailsC3 [activityC3] = [] :=
  ⟨rfl, rfl, rfl, rfl, rfl, by norm_num, by rfl, by rfl⟩

/-- C3 (amended): a record is admitted to per-target aggregation iff the
six record-level conditions hold AND its target id is present and
non-empty AND the detail-level organism of that target is absent, empty
or "Homo sapiens". -/
theorem C3_admission_amended (thr : ℚ) (details : String → Option TargetDetail) (a : Activity) :
    admits thr details a = true ↔
      (a.standard_relation = some "=" ∧
       (a.assay_type = some "B" ∨ a.assay_type = some "F") ∧
       (a.assay_organism = none ∨ a.assay_organism = some "Homo sapiens") ∧
       (a.data_validity_comment = none ∨ a.data_validity_comment = some "") ∧
       (∃ v, a.pchembl_value = some v ∧ thr ≤ v) ∧
       (∃ tid, a.target_chembl_id = some tid ∧ tid ≠ "" ∧
         organism_ok ((details tid).bind (fun d => d.target_organism)))) := by
  unfold admits meets_assay_filters
  cases hpv : a.pchembl_value with
  | none => simp [hpv]
  | some v =>
    cases htid : a.target_chembl_id with
    | none => simp [hpv, htid]
    | some tid =>
      simp only [hpv, htid]
      simp [and_assoc]
      cases horg : (details tid).bind (fun d => d.target_organism) with
      | none => simp [organism_ok]
      | some org => simp [organism_ok]

/-- C6: the resolution decision policy. Zero candidates fail with
NotFound; a single candidate with no truthy explicit choice is
auto-selected; multiple candidates with no truthy choice fail with
Ambiguous carrying the full candidate list (same parent ids in order);
a truthy explicit choice selects the first candidate whose parent id
equals it exactly, and fails with InvalidChoice if none matches. -/
theorem C6_resolve_drug_identity_policy :
    (∀ (query : String) (choice : Option String) (pc : Except Unit (List PubchemCandidate)),
      resolve_drug_identity query choice (.ok []) pc = .error .notFound) ∧
    (∀ (query : String) (c : RawCandidate) (pc : Except Unit (List PubchemCandidate)),
      resolve_drug_identity query none (.ok [c]) pc =
        .ok (resolution_of query c, build_candidates [c] (pubchem_inchikey_set pc))) ∧
    (∀ (query : String) (cs : List RawCandidate) (pc : Except Unit (List PubchemCandidate)),
      2 ≤ cs.length →
      resolve_drug_identity query none (.ok cs) pc =
        .error (.ambiguous (build_candidates cs (pubchem_inchikey_set pc))) ∧
      (build_candidates cs (pubchem_inchikey_set pc)).map (fun c => c.chembl_parent_id) =
        cs.map (fun c => c.chembl_parent_id)) ∧
    (∀ (query choice : String) (cs : List RawCandidate) (c : RawCandidate)
        (pc : Except Unit (List PubchemCandidate)),
      choice ≠ "" → cs ≠ [] →
      cs.find? (fun cand => cand.chembl_parent_id == choice) = some c →
      resolve_drug_identity query (some choice) (.ok cs) pc =
        .ok (resolution_of query c, build_candidates cs (pubchem_inchikey_set pc))) ∧
    (∀ (query choice : String) (cs : List RawCandidate) (pc : Except Unit (List PubchemCandidate)),
      choice ≠ "" → cs ≠ [] →
      cs.find? (fun cand => cand.chembl_parent_id == choice) = none →
      resolve_drug_identity query (some choice) (.ok cs) pc = .error .invalidChoice) := by
  refine ⟨?_, ?_, ?_, ?_, ?_⟩
  · intro query choice pc
    rfl
  · intro query c pc
    rfl
  · intro query cs pc hlen
    match cs, hlen with
    | c1 :: c2 :: rest, _ =>
      constructor
      · rfl
      · simp [build_candidates, List.map_map]
  · intro query choice cs c pc hch hne hfind
    have hbeq : (!(choice == "")) = true := by simp [hch]
    unfold resolve_drug_identity
    simp [pyTruthy, hbeq, hfind, if_neg hne]
  · intro query choice cs pc hch hne hfind
    have hbeq : (!(choice == "")) = true := by simp [hch]
    unfold resolve_drug_identity
    simp [pyTruthy, hbeq, hfind, if_neg hne]

/-- Witness for C6 at concrete inputs: two candidates are ambiguous
without a choice, a matching choice selects candidate B, and an unknown
choice is invalid. -/
theorem C6_resolve_drug_identity_policy_witness :
    (resolve_drug_identity "q" none (.ok [candA, candB]) (.ok []) =
      .error (.ambiguous (build_candidates [candA, candB] (pubchem_inchikey_set (.ok [])))) ∧
     (build_candidates [candA, candB] (pubchem_inchikey_set (.ok []))).map
        (fun c => c.chembl_parent_id) =
       [candA, candB].map (fun c => c.chembl_parent_id)) ∧
    resolve_drug_identity "q" (some "CHEMBL2") (.ok [candA, candB]) (.ok []) =
      .ok (resolution_of "q" candB, build_candidates [candA, candB] (pubchem_inchikey_set (.ok []))) ∧
    resolve_drug_identity "q" (some "CHEMBL9") (.ok [candA, candB]) (.ok []) =
      .error .invalidChoice :=
  ⟨C6_resolve_drug_identity_policy.2.2.1 "q" [candA, candB] (.ok []) (by decide),
   C6_resolve_drug_identity_policy.2.2.2.1 "q" "CHEMBL2" [candA, candB] candB (.ok [])
     (by decide) (by decide) (by rfl),
   C6_resolve_drug_identity_policy.2.2.2.2 "q" "CHEMBL9" [candA, candB] (.ok [])
     (by decide) (by decide) (by rfl)⟩

/-- Counterexample to C1: the primary source returns one record, the
record fails the assay filter so nothing is admitted to aggregation, yet
`run_analysis` returns a successful result with an empty target list
instead of failing with `FatalAnalysisError`. -/
theorem C1_zero_usable_counterexample :
    envC1.chembl_fetch_activities "CHEMBL25" = .ok [activityC1] ∧
    admits 5 (fun _ => none) activityC1 = false ∧
    runIsOk (run_analysis envC1 "aspirin" {} none) = true ∧
    runTargets (run_analysis envC1 "aspirin" {} none) = some [] :=
  ⟨rfl, rfl, rfl, rfl⟩

/-- Aggregation admits nothing when every record is rejected. -/
theorem aggregate_activities_eq_nil (thr : ℚ) (details : String → Option TargetDetail)
    (acts : List Activity) (h : ∀ a ∈ acts, admits thr details a = false) :
    aggregate_activities thr details acts = [] := by
  induction acts with
  | nil => rfl
  | cons a as ih =>
    have ha := h a (by simp)
    have hstep : agg_step thr details [] a = [] := by simp [agg_step, ha]
    have hrest := ih (fun x hx => h x (by simp [hx]))
    simpa [aggregate_activities, hstep] using hrest

/-- C1 (amended): the fatal gate fires exactly on the raw activity
fetch — a fetch that succeeds with zero records is fatal, while a fetch
returning records always yields a successful result, even if no record
survives the assay filter and threshold, in which case the result merely
has an empty target list and an empty pathway list. -/
theorem C1_fatal_gate_amended (env : UpstreamEnv) (drug : String) (params : AnalysisParams)
    (choice : Option String) (res : DrugResolution) (cands : List DrugResolutionCandidate)
    (hres : resolve_drug_identity drug choice env.chembl_resolve_candidates
      env.pubchem_resolve_candidates = .ok (res, cands)) :
    (env.chembl_fetch_activities res.chembl_parent_id = .ok [] →
      run_analysis env drug params choice =
        .error (.fatal "No ChEMBL activity records found for this drug.")) ∧
    (∀ activities, env.chembl_fetch_activities res.chembl_parent_id = .ok activities →
      activities ≠ [] →
      run_analysis env drug params choice =
        .ok (analysis_parts env drug params res activities).result ∧
      ((∀ a ∈ activities,
          admits params.pchembl_threshold
            (analysis_parts env drug params res activities).details a = false) →
        (analysis_parts env drug params res activities).result.targets = [] ∧
        (analysis_parts env drug params res activities).result.pathways = [])) := by
  constructor
  · intro hacts
    simp [run_analysis, hres, hacts]
  · intro activities hacts hne
    refine ⟨by simp [run_analysis, hres, hacts, hne], ?_⟩
    intro hnone
    have hagg : aggregate_activities params.pchembl_threshold
        (analysis_parts env drug params res activities).details activities = [] :=
      aggregate_activities_eq_nil _ _ _ hnone
    simp only [analysis_parts] at hagg ⊢
    rw [hagg]
    simp [build_target_hits, sort_hits_desc, List.insertionSort, mapping_loop,
      MAX_TARGETS_DEFAULT, build_pathway_agg, build_pathway_entries,
      dedupe_child_over_parent, sort_pathways_desc]

/-- Witness for C1 (amended) at the concrete C1 environment. -/
theorem C1_fatal_gate_amended_witness :
    run_analysis envC1 "aspirin" {} none =
      .ok (analysis_parts envC1 "aspirin" {} (resolution_of "aspirin" candC1)
        [activityC1]).result ∧
    (analysis_parts envC1 "aspirin" {} (resolution_of "aspirin" candC1)
      [activityC1]).result.targets = [] ∧
    (analysis_parts envC1 "aspirin" {} (resolution_of "aspirin" candC1)
      [activityC1]).result.pathways = [] := by
  have h := C1_fatal_gate_amended envC1 "aspirin" {} none (resolution_of "aspirin" candC1)
    (build_candidates [candC1] (pubchem_inchikey_set (.ok []))) (by rfl)
  have h2 := h.2 [activityC1] (by rfl) (by simp)
  have h3 := h2.2 (by
    intro a ha
    rw [List.mem_singleton] at ha
    subst ha
    rfl)
  exact ⟨h2.1, h3.1, h3.2⟩

/-- Status resolution never reassigns a hit's target id. -/
theorem status_resolve_id (pathways : List PathwayAssoc) (em rd : Bool) (hit : TargetHit) :
    (status_resolve pathways em rd hit).target_chembl_id = hit.target_chembl_id := by
  unfold status_resolve
  split_ifs <;> rfl

/-- The live-lookup step never reassigns a hit's target id. -/
theorem live_lookup_hit_id (env : UpstreamEnv) (st : MapState) (acc : String)
    (hit : TargetHit) (cached : List PathwayAssoc) :
    ((live_lookup env st acc hit cached).2.1).target_chembl_id = hit.target_chembl_id := by
  unfold live_lookup
  split
  · rfl
  · cases env.reactome_pathways_for_uniprot acc <;> rfl

/-- Outcome assembly never reassigns the live-lookup hit's target id. -/
theorem finalize_mapped_id (ud em : Bool)
    (live : List PathwayAssoc × TargetHit × Option (String → List PathwayAssoc) × Bool × Bool) :
    (finalize_mapped ud em live).hit.target_chembl_id = live.2.1.target_chembl_id := by
  rcases live with ⟨ps, hit, c, rd, ic⟩
  simp only [finalize_mapped]
  split <;> simp [status_resolve_id]

/-- The mapped-hit half never reassigns a hit's target id. -/
theorem mapped_outcome_id (env : UpstreamEnv) (st : MapState) (ud : Bool) (hit : TargetHit) :
    (mapped_outcome env st ud hit).hit.target_chembl_id = hit.target_chembl_id := by
  simp only [mapped_outcome]
  rw [finalize_mapped_id, live_lookup_hit_id]
  split <;> rfl

/-- The loop body never reassigns a hit's target id. -/
theorem hit_outcome_id (env : UpstreamEnv) (st : MapState) (hit : TargetHit) :
    (hit_outcome env st hit).hit.target_chembl_id = hit.target_chembl_id := by
  rcases hf : map_uniprot_with_fallback env hit with ⟨mapped, notes, down⟩
  simp only [hit_outcome, hf]
  split
  · rw [mapped_outcome_id]
  · rfl

/-- The mapping loop appends exactly one processed hit per input hit,
preserving the target id. -/
theorem process_hit_adds_one (env : UpstreamEnv) (st : MapState) (hit : TargetHit) :
    ∃ h', (process_hit env st hit).hits_out = st.hits_out ++ [h'] ∧
      h'.target_chembl_id = hit.target_chembl_id :=
  ⟨(hit_outcome env st hit).hit, rfl, hit_outcome_id env st hit⟩

/-- Target ids of the mapping loop's output, for any starting state. -/
theorem mapping_fold_ids (env : UpstreamEnv) (hits : List TargetHit) (st : MapState) :
    ((hits.foldl (process_hit env) st).hits_out).map (fun t => t.target_chembl_id) =
      st.hits_out.map (fun t => t.target_chembl_id) ++
        hits.map (fun t => t.target_chembl_id) := by
  induction hits generalizing st with
  | nil => simp
  | cons h hs ih =>
    obtain ⟨h', hh, hid⟩ := process_hit_adds_one env st h
    simp [List.foldl_cons, ih, hh, hid]

/-- C7: an outage at a fallback step does not stop the accession chain
(the remaining steps still run and can succeed); a hit whose whole chain
produces no accession is marked unmapped with the unmapped note and an
empty pathway contribution but is appended to the output like any other
hit; an empty pathway contribution adds nothing to pathway aggregation;
the loop preserves the target list element-for-element; and the final
result's target list is exactly the loop output. -/
theorem C7_unmapped_target_handling :
    (∀ (env : UpstreamEnv) (hit : TargetHit) (m : String),
      hit.uniprot_id = none →
      env.uniprot_map_target hit.target_chembl_id = .error () →
      env.uniprot_map_target_xref hit.target_chembl_id = .ok (some m) → m ≠ "" →
      map_uniprot_with_fallback env hit = (some m, ["uniprot_xref_lookup"], true)) ∧
    (∀ (env : UpstreamEnv) (hit : TargetHit) (g m : String),
      hit.uniprot_id = none →
      env.uniprot_map_target hit.target_chembl_id = .error () →
      env.uniprot_map_target_xref hit.target_chembl_id = .error () →
      hit.gene_symbol = some g → g ≠ "" →
      env.uniprot_map_by_gene_symbol g = .ok (some m) → m ≠ "" →
      map_uniprot_with_fallback env hit = (some m, ["uniprot_gene_symbol"], true)) ∧
    (∀ (env : UpstreamEnv) (st : MapState) (hit : TargetHit) (notes : List String)
        (down : Bool),
      map_uniprot_with_fallback env hit = (none, notes, down) →
      (process_hit env st hit).hits_out =
        st.hits_out ++
          [{ hit with
               mapping_status := "unmapped"
               mapping_notes := notes ++ ["unmapped_target"] }] ∧
      (process_hit env st hit).pathways_by_target =
        st.pathways_by_target ++ [(hit.target_chembl_id, [])]) ∧
    (∀ (hits : List TargetHit) (pbt : List (String × List PathwayAssoc)) (tid : String),
      build_pathway_agg hits (pbt ++ [(tid, [])]) = build_pathway_agg hits pbt) ∧
    (∀ (env : UpstreamEnv) (hits : List TargetHit),
      ((mapping_loop env hits).hits_out).map (fun t => t.target_chembl_id) =
        hits.map (fun t => t.target_chembl_id)) ∧
    (∀ (env : UpstreamEnv) (drug : String) (params : AnalysisParams)
        (res : DrugResolution) (acts : List Activity),
      (analysis_parts env drug params res acts).result.targets =
        (analysis_parts env drug params res acts).mapping.hits_out) := by
  refine ⟨?_, ?_, ?_, ?_, ?_, ?_⟩
  · intro env hit m h1 h2 h3 h4
    simp [map_uniprot_with_fallback, map_step_xref, h1, h2, h3, pyTruthy, h4]
  · intro env hit g m h1 h2 h3 hg hgne h4 h5
    simp [map_uniprot_with_fallback, map_step_xref, map_step_gene, h1, h2, h3, hg,
      pyTruthy, hgne, h4, h5]
  · intro env st hit notes down hf
    cases down <;> simp [process_hit, hit_outcome, hf, pyTruthy]
  · intro hits pbt tid
    simp only [build_pathway_agg, List.foldl_append, List.foldl_cons, List.foldl_nil]
    cases hfind : hits.find? (fun h => h.target_chembl_id == tid) <;> simp [hfind]
  · intro env hits
    simp [mapping_loop, mapping_fold_ids]
  · intro env drug params res acts
    rfl

/-- Witness for C7: a direct-lookup outage still reaches the xref step,
two outages still reach the gene-symbol step, and a fully failed chain
yields an unmapped hit that is kept with an empty pathway
contribution. -/
theorem C7_unmapped_target_handling_witness :
    map_uniprot_with_fallback (envC7 (.error ()) (.ok (some "P1")) (.ok none)) hitC7 =
      (some "P1", ["uniprot_xref_lookup"], true) ∧
    map_uniprot_with_fallback (envC7 (.error ()) (.error ()) (.ok (some "P2"))) hitC7 =
      (some "P2", ["uniprot_gene_symbol"], true) ∧
    (process_hit (envC7 (.ok none) (.ok none) (.ok none)) {} hitC7).hits_out =
      [{ hitC7 with
           mapping_status := "unmapped"
           mapping_notes := ["uniprot_unmapped", "unmapped_target"] }] ∧
    (process_hit (envC7 (.ok none) (.ok none) (.ok none)) {} hitC7).pathways_by_target =
      [("CHEMBL203", [])] := by
  refine ⟨?_, ?_, ?_, ?_⟩
  · exact C7_unmapped_target_handling.1 (envC7 (.error ()) (.ok (some "P1")) (.ok none)) hitC7
      "P1" rfl rfl rfl (by decide)
  · exact C7_unmapped_target_handling.2.1 (envC7 (.error ()) (.error ()) (.ok (some "P2")))
      hitC7 "EGFR" "P2" rfl rfl rfl rfl (by decide) rfl (by decide)
  · have h := (C7_unmapped_target_handling.2.2.1 (envC7 (.ok none) (.ok none) (.ok none)) {}
      hitC7 ["uniprot_unmapped"] false (by rfl)).1
    simpa using h
  · have h := (C7_unmapped_target_handling.2.2.1 (envC7 (.ok none) (.ok none) (.ok none)) {}
      hitC7 ["uniprot_unmapped"] false (by rfl)).2
    simpa using h

/-- Sorting preserves membership. -/
theorem mem_sortStrings (x : String) (l : List String) : x ∈ sortStrings l ↔ x ∈ l :=
  (List.perm_insertionSort _ l).mem_iff

/-- The final degraded-message list has no duplicates. -/
theorem sortStrings_dedup_nodup (l : List String) : (sortStrings l.dedup).Nodup :=
  ((List.perm_insertionSort _ l.dedup).nodup_iff).mpr (List.nodup_dedup l)

/-- Outcome assembly passes the accession-outage flag through. -/
theorem finalize_mapped_uniprot_down (ud em : Bool)
    (live : List PathwayAssoc × TargetHit × Option (String → List PathwayAssoc) × Bool × Bool) :
    (finalize_mapped ud em live).uniprot_down = ud := by
  rcases live with ⟨ps, hit, c, rd, ic⟩
  rfl

/-- The mapped-hit half passes the accession-outage flag through. -/
theorem mapped_outcome_uniprot_down (env : UpstreamEnv) (st : MapState) (ud : Bool)
    (hit : TargetHit) : (mapped_outcome env st ud hit).uniprot_down = ud := by
  simp only [mapped_outcome]
  rw [finalize_mapped_uniprot_down]

/-- The loop body ORs the chain's outage flag into the state flag. -/
theorem hit_outcome_uniprot_down (env : UpstreamEnv) (st : MapState) (hit : TargetHit) :
    (hit_outcome env st hit).uniprot_down =
      ((map_uniprot_with_fallback env hit).2.2 || st.uniprot_down) := by
  rcases hf : map_uniprot_with_fallback env hit with ⟨mapped, notes, down⟩
  simp only [hit_outcome, hf]
  cases down <;> split <;> simp [mapped_outcome_uniprot_down]

/-- The accession-outage flag accumulated over the whole loop: set iff
it was set initially or some hit's fallback chain reported an outage. -/
theorem fold_uniprot_down (env : UpstreamEnv) (hits : List TargetHit) (st : MapState) :
    (hits.foldl (process_hit env) st).uniprot_down =
      (st.uniprot_down || hits.any (fun h => (map_uniprot_with_fallback env h).2.2)) := by
  induction hits generalizing st with
  | nil => simp
  | cons h hs ih =>
    simp only [List.foldl_cons, List.any_cons, ih, process_hit]
    rw [hit_outcome_uniprot_down]
    cases st.uniprot_down <;> cases (map_uniprot_with_fallback env h).2.2 <;> simp

/-- C8 (amended): every run completing despite a non-fatal failure of the
structure enrichment, mechanism enrichment, accession mapping or pathway
mapping sources carries the corresponding degradation message in its result, and
the degradation list is deduplicated; a target-detail fetch failure is
excluded because the source absorbs it silently into placeholder
details. -/
theorem C8_degradation_messages_amended (env : UpstreamEnv) (drug : String)
    (params : AnalysisParams) (res : DrugResolution) (acts : List Activity) :
    (env.pubchem_resolve_name drug = .error () →
      "Drug structure image unavailable." ∈
        (analysis_parts env drug params res acts).result.degraded_messages) ∧
    (env.opentargets_drug_info res.chembl_parent_id = .error () →
      "Drug mechanism data unavailable. Direction information may be missing." ∈
        (analysis_parts env drug params res acts).result.degraded_messages) ∧
    (∀ hit ∈ (analysis_parts env drug params res acts).hits_top,
      (map_uniprot_with_fallback env hit).2.2 = true →
      "Some target annotations may be incomplete." ∈
        (analysis_parts env drug params res acts).result.degraded_messages) ∧
    ((analysis_parts env drug params res acts).mapping.reactome_down = true →
      "Pathway data temporarily unavailable. Showing target binding data only." ∈
        (analysis_parts env drug params res acts).result.degraded_messages) ∧
    (analysis_parts env drug params res acts).result.degraded_messages.Nodup := by
  have hdeg : (analysis_parts env drug params res acts).result.degraded_messages =
      sortStrings ((analysis_parts env drug params res acts).messages).dedup := rfl
  have hmsg : (analysis_parts env drug params res acts).messages =
      degraded_of (isErr (env.pubchem_resolve_name drug))
        (isErr (env.opentargets_drug_info res.chembl_parent_id))
        (analysis_parts env drug params res acts).truncated
        (analysis_parts env drug params res acts).mapping
        (analysis_parts env drug params res acts).limited := rfl
  have hmem : ∀ x, x ∈ (analysis_parts env drug params res acts).messages →
      x ∈ (analysis_parts env drug params res acts).result.degraded_messages := by
    intro x hx
    rw [hdeg, mem_sortStrings]
    exact List.mem_dedup.mpr hx
  refine ⟨?_, ?_, ?_, ?_, ?_⟩
  · intro h
    apply hmem
    rw [hmsg]
    simp [degraded_of, isErr, h]
  · intro h
    apply hmem
    rw [hmsg]
    simp [degraded_of, isErr, h]
  · intro hit hin hdown
    have hup : (analysis_parts env drug params res acts).mapping.uniprot_down = true := by
      have hmap : (analysis_parts env drug params res acts).mapping =
          mapping_loop env (analysis_parts env drug params res acts).hits_top := rfl
      rw [hmap, mapping_loop, fold_uniprot_down]
      simp only [Bool.false_or]
      exact List.any_eq_true.mpr ⟨hit, hin, hdown⟩
    apply hmem
    rw [hmsg]
    simp [degraded_of, hup]
  · intro h
    apply hmem
    rw [hmsg]
    simp [degraded_of, h]
  · rw [hdeg]
    exact sortStrings_dedup_nodup _

/-- Counterexample to C8: the target-detail enrichment source raises a
downstream error for every query, the run still completes successfully,
and the result's degraded-message list is empty — no message records
that failure. -/
theorem C8_target_detail_counterexample :
    runIsOk (run_analysis envC8x "aspirin" {} none) = true ∧
    runDegraded (run_analysis envC8x "aspirin" {} none) = some [] ∧
    envC8x.chembl_fetch_target_details ["CHEMBL1", "CHEMBL2", "CHEMBL3"] = .error () :=
  ⟨rfl, rfl, rfl⟩

/-- Witness for C8 (amended) at the concrete degraded environment. -/
theorem C8_degradation_messages_amended_witness :
    "Drug structure image unavailable." ∈
      (analysis_parts envC8w "d" {} resW
        [actOf "CHEMBL1" "A1", actOf "CHEMBL1" "A2"]).result.degraded_messages ∧
    "Drug mechanism data unavailable. Direction information may be missing." ∈
      (analysis_parts envC8w "d" {} resW
        [actOf "CHEMBL1" "A1", actOf "CHEMBL1" "A2"]).result.degraded_messages ∧
    "Some target annotations may be incomplete." ∈
      (analysis_parts envC8w "d" {} resW
        [actOf "CHEMBL1" "A1", actOf "CHEMBL1" "A2"]).result.degraded_messages ∧
    "Pathway data temporarily unavailable. Showing target binding data only." ∈
      (analysis_parts envC8w "d" {} resW
        [actOf "CHEMBL1" "A1", actOf "CHEMBL1" "A2"]).result.degraded_messages :=
  ⟨(C8_degradation_messages_amended envC8w "d" {} resW
      [actOf "CHEMBL1" "A1", actOf "CHEMBL1" "A2"]).1 rfl,
   (C8_degradation_messages_amended envC8w "d" {} resW
      [actOf "CHEMBL1" "A1", actOf "CHEMBL1" "A2"]).2.1 rfl,
   (C8_degradation_messages_amended envC8w "d" {} resW
      [actOf "CHEMBL1" "A1", actOf "CHEMBL1" "A2"]).2.2.1
     ((analysis_parts envC8w "d" {} resW
        [actOf "CHEMBL1" "A1", actOf "CHEMBL1" "A2"]).hits_top.headD dummyHit)
     (by decide) (by decide),
   (C8_degradation_messages_amended envC8w "d" {} resW
      [actOf "CHEMBL1" "A1", actOf "CHEMBL1" "A2"]).2.2.2.1 (by decide)⟩

/-- Witness for C4 at concrete inputs. -/
theorem C4_confidence_tier_spec_witness :
    (confidence_tier 1 (49 / 10) (some 7) = "medium" ↔
      2 ≤ (1 : ℕ) ∧ 5 ≤ (49 / 10 : ℚ) ∧ 8 ≤ (some (7 : ℤ)).getD 0) ∧
    confidence_tier 1 (49 / 10) (some 7) = "low" ∧
    tierRank (confidence_tier 2 (51 / 10) (some 8)) ≤
      tierRank (confidence_tier 5 (31 / 5) (some 9)) :=
  ⟨C4_confidence_tier_spec.2.1 1 (49 / 10) (some 7) (by decide),
   C4_confidence_tier_spec.2.2.1 1 (49 / 10) (some 7) (by decide) (by decide),
   C4_confidence_tier_spec.2.2.2.1 2 5 (51 / 10) (31 / 5) 8 9 (by decide) (by norm_num)
     (by decide)⟩

/-- Rounding to six decimals fixes 0. -/
theorem round6_zero : round6 0 = 0 := by decide

/-- Rounding to six decimals fixes 1. -/
theorem round6_one : round6 1 = 1 := by decide

/-- Real rounding to six decimals fixes 0. -/
theorem round6R_zero : round6R 0 = 0 := by
  have h : ⌊(0 : ℝ) * 1000000 + 1 / 2⌋ = 0 := by
    rw [Int.floor_eq_iff]; norm_num  
  rw [round6R, h]
  norm_num

/-- Real rounding to six decimals fixes 1. -/
theorem round6R_one : round6R 1 = 1 := by
  have h : ⌊(1 : ℝ) * 1000000 + 1 / 2⌋ = 1000000 := by
    rw [Int.floor_eq_iff]; norm_num  
  rw [round6R, h]
  norm_num

/-- A sum of squares is non-negative. -/
theorem sumSq_nonneg (v : List ℚ) : 0 ≤ sumSq v := by
  apply List.sum_nonneg
  intro x hx
  obtain ⟨a, _, rfl⟩ := List.mem_map.mp hx
  exact mul_self_nonneg a

/-- The dot product of a vector with itself is its sum of squares. -/
theorem dotProd_self (v : List ℚ) : dotProd v v = sumSq v := by
  induction v with
  | nil => rfl
  | cons a v ih => simp [dotProd, sumSq] at ih ⊢; linarith

/-- C9: the comparison metrics — Jaccard is 0 on an empty union of
target-id sets and |intersection| / |union| (six-decimal rounded)
otherwise, the cosine is 0 whenever either score vector has zero norm,
identical non-empty target sets give Jaccard 1, an identical score dict
with some non-zero score gives cosine 1, and disjoint target sets give
Jaccard 0. -/
theorem C9_compare_metrics_spec :
    (∀ (a b : List String) (pa pb : List (String × ℚ)),
      a.toFinset ∪ b.toFinset = ∅ → (compare_metrics a b pa pb).target_jaccard = 0) ∧
    (∀ (a b : List String) (pa pb : List (String × ℚ)),
      a.toFinset ∪ b.toFinset ≠ ∅ →
      (compare_metrics a b pa pb).target_jaccard =
        round6 (((a.toFinset ∩ b.toFinset).card : ℚ) / ((a.toFinset ∪ b.toFinset).card : ℚ))) ∧
    (∀ (a b : List String) (pa pb : List (String × ℚ)),
      sumSq ((allPathwayIds pa pb).map (pyget pa)) = 0 ∨
        sumSq ((allPathwayIds pa pb).map (pyget pb)) = 0 →
      (compare_metrics a b pa pb).pathway_cosine_similarity = 0) ∧
    (∀ (a b : List String) (pa pb : List (String × ℚ)),
      a.toFinset = b.toFinset → a ≠ [] →
      (compare_metrics a b pa pb).target_jaccard = 1) ∧
    (∀ (a b : List String) (pa : List (String × ℚ)),
      sumSq ((allPathwayIds pa pa).map (pyget pa)) ≠ 0 →
      (compare_metrics a b pa pa).pathway_cosine_similarity = 1) ∧
    (∀ (a b : List String) (pa pb : List (String × ℚ)),
      a.toFinset ∩ b.toFinset = ∅ → (compare_metrics a b pa pb).target_jaccard = 0) := by
  refine ⟨?_, ?_, ?_, ?_, ?_, ?_⟩
  · intro a b pa pb h
    simp [compare_metrics, h, round6_zero]
  · intro a b pa pb h
    simp [compare_metrics, h]
  · intro a b pa pb h
    have hz : Real.sqrt ((sumSq ((allPathwayIds pa pb).map (pyget pa)) : ℚ) : ℝ) = 0 ∨
        Real.sqrt ((sumSq ((allPathwayIds pa pb).map (pyget pb)) : ℚ) : ℝ) = 0 := by
      rcases h with h | h
      · left
        rw [h]
        simp [Real.sqrt_zero]
      · right
        rw [h]
        simp [Real.sqrt_zero]
    simp only [compare_metrics]
    rw [if_pos hz, round6R_zero]
  · intro a b pa pb heq hne
    have hne' : b.toFinset ≠ ∅ := by
      rw [← heq, Ne, List.toFinset_eq_empty_iff]
      exact hne
    have hcard : ((b.toFinset.card : ℚ)) ≠ 0 :=
      Nat.cast_ne_zero.mpr (by rwa [Ne, Finset.card_eq_zero])
    simp only [compare_metrics, heq, Finset.union_self, Finset.inter_self]
    rw [if_neg hne', div_self hcard, round6_one]
  · intro a b pa h
    have hpos : (0 : ℝ) < ((sumSq ((allPathwayIds pa pa).map (pyget pa)) : ℚ) : ℝ) := by
      have := lt_of_le_of_ne (sumSq_nonneg _) (Ne.symm h)
      exact_mod_cast this
    have hsqrt : Real.sqrt ((sumSq ((allPathwayIds pa pa).map (pyget pa)) : ℚ) : ℝ) ≠ 0 :=
      Real.sqrt_ne_zero'.mpr hpos
    simp only [compare_metrics]
    rw [if_neg (by push_neg; exact ⟨hsqrt, hsqrt⟩)]
    rw [dotProd_self, Real.mul_self_sqrt hpos.le, div_self hpos.ne', round6R_one]
  · intro a b pa pb h
    by_cases hu : a.toFinset ∪ b.toFinset = ∅
    · simp [compare_metrics, hu, round6_zero]
    · simp [compare_metrics, hu, h, round6_zero]

/-- Witness for C9 at concrete inputs: empty union, identical singleton
sets with an identical one-entry score dict, a zero-norm vector, and
disjoint singletons. -/
theorem C9_compare_metrics_spec_witness :
    (compare_metrics [] [] [] []).target_jaccard = 0 ∧
    (compare_metrics ["t"] ["t"] [("p", 2)] [("p", 2)]).target_jaccard = 1 ∧
    (compare_metrics ["t"] ["t"] [("p", 2)] [("p", 2)]).pathway_cosine_similarity = 1 ∧
    (compare_metrics ["t"] ["t"] [] [("q", 1)]).pathway_cosine_similarity = 0 ∧
    (compare_metrics ["x"] ["y"] [] []).target_jaccard = 0 :=
  ⟨C9_compare_metrics_spec.1 [] [] [] [] (by simp),
   C9_compare_metrics_spec.2.2.2.1 ["t"] ["t"] [("p", 2)] [("p", 2)] rfl (by simp),
   C9_compare_metrics_spec.2.2.2.2.1 ["t"] ["t"] [("p", 2)] (by decide),
   C9_compare_metrics_spec.2.2.1 ["t"] ["t"] [] [("q", 1)] (by left; decide),
   C9_compare_metrics_spec.2.2.2.2.2 ["x"] ["y"] [] [] (by decide)⟩

end Pathmind
